import Mathlib

/-!
Verification of the cdQA reader (reader_sklearn.py) against its
natural-language specification.

The file shallow-embeds the parts of the program the claims talk about:
the model-type dispatch of the module-level predict and evaluate routines,
the model-input construction from the TensorDataset batch layout, the
output-directory guard in Reader.fit, the local-rank gate in
Reader.evaluate, the cache branch of load_and_cache_examples, the
null-odds file plumbing, and the span decoders plus answer aggregation.
The span decoders and prediction writers live in utils_squad, which is
referenced by reader_sklearn.py but not part of the sources under
verification, so those definitions are modelled from the specification
text and marked as such in their doc comments.
-/

/-- The model families dispatched on by reader_sklearn.py (MODEL_CLASSES). -/
inductive ModelType
  | bert
  | xlnet
  | xlm
deriving DecidableEq, Repr

/-- True for the model types treated by the extended (beam) post-processing
branch, mirroring the test model_type in a list holding xlnet and xlm. -/
def ModelType.isExtended : ModelType → Bool
  | .bert => false
  | .xlnet => true
  | .xlm => true

/-! ## Claim C1: return shape of the prediction routines -/

/-- A Python value as far as tuple shape is concerned: evaluation details,
a final-prediction text, or a pair of values. -/
inductive PredValue
  | evalDetails (d : Nat)
  | text (s : String)
  | pair (a b : PredValue)
deriving DecidableEq, Repr

/-- Modelled from the spec: utils_squad.write_predictions is not among the
sources. The spec's estimator surface says predict returns the pair
(evaluation_details, final_prediction_text), and Reader.predict
(reader_sklearn.py line 582) unpacks the value returned by the module-level
predict into two components; in the standard branch that value is the whole
return of write_predictions, so write_predictions returns that pair. -/
def write_predictions (ed : Nat) (txt : String) : PredValue :=
  PredValue.pair (PredValue.evalDetails ed) (PredValue.text txt)

/-- Modelled from the spec: utils_squad.write_predictions_extended is not
among the sources. reader_sklearn.py line 375 unpacks its result as the
Python pair (out_eval, final_prediction), so it returns a two-tuple whose
second component is the final prediction text. -/
def write_predictions_extended (ed : Nat) (txt : String) : PredValue × PredValue :=
  (PredValue.evalDetails ed, PredValue.text txt)

/-- The module-level predict (reader_sklearn.py lines 373-386), restricted
to its returned value: in the standard branch it returns the whole value of
write_predictions; in the extended branch it unpacks the pair returned by
write_predictions_extended and returns only final_prediction. -/
def predict (mt : ModelType) (ed : Nat) (txt : String) : PredValue :=
  if mt.isExtended then (write_predictions_extended ed txt).2
  else write_predictions ed txt

/-- Whether a Python value is a two-element tuple. -/
def PredValue.isPair : PredValue → Bool
  | .pair _ _ => true
  | _ => false

/-- Tuple unpacking of a value into two components, as performed by
Reader.predict (line 582): succeeds only on a pair. -/
def unpackPair : PredValue → Option (PredValue × PredValue)
  | .pair a b => some (a, b)
  | _ => none

/-- Alias for the module-level predict, so that Reader.predict below can
refer to it (inside the Reader namespace the bare name resolves to the
declaration being defined). -/
def modulePredict : ModelType → Nat → String → PredValue := predict

/-- Reader.predict (reader_sklearn.py lines 580-584): unpacks the value of
the module-level predict as (out_eval, final_prediction) and returns it. -/
def Reader.predict (mt : ModelType) (ed : Nat) (txt : String) :
    Option (PredValue × PredValue) :=
  unpackPair (modulePredict mt ed txt)

/-- Claim C1: the claim says the value produced by the underlying prediction
routine is a two-element tuple for the standard model type as well as for the
extended model types. The code contradicts this for the extended branch: at
model_type xlnet the module-level predict returns only final_prediction (the
second component of the write_predictions_extended pair), which is not a
pair, so Reader.predict's unpacking into (out_eval, final_prediction) fails;
the standard branch does produce a pair. -/
theorem C1_predict_xlnet_not_pair :
    (predict ModelType.xlnet 0 "January 2016").isPair = false
    ∧ Reader.predict ModelType.xlnet 0 "January 2016" = none
    ∧ (predict ModelType.bert 0 "January 2016").isPair = true
    ∧ Reader.predict ModelType.bert 0 "January 2016"
        = some (PredValue.evalDetails 0, PredValue.text "January 2016") :=
  ⟨rfl, rfl, rfl, rfl⟩

/-! ## Claim C2: model inputs built by evaluate versus predict -/

/-- One batch drawn from the TensorDataset built by load_and_cache_examples
with evaluate=True (reader_sklearn.py lines 306-309): position 0 holds
input_ids, position 1 input_mask, position 2 segment_ids, position 3
example_index, position 4 cls_index, position 5 p_mask. -/
structure EvalBatch (α : Type) where
  input_ids : α
  input_mask : α
  segment_ids : α
  example_index : α
  cls_index : α
  p_mask : α
deriving DecidableEq, Repr

/-- The keyword arguments of one model call. -/
structure ModelInputs (α : Type) where
  input_ids : α
  attention_mask : α
  token_type_ids : Option α
  cls_index : Option α
  p_mask : Option α
deriving DecidableEq, Repr

/-- The model inputs constructed by the module-level evaluate
(reader_sklearn.py lines 220-227): input_ids from batch position 0,
attention_mask from position 1 (input_mask), token_type_ids from position 2
(segment_ids, None for xlm), and for the extended model types cls_index from
position 4 and p_mask from position 5. -/
def evaluateInputs {α : Type} (mt : ModelType) (b : EvalBatch α) : ModelInputs α :=
  ⟨b.input_ids,
   b.input_mask,
   if mt = ModelType.xlm then none else some b.segment_ids,
   if mt.isExtended then some b.cls_index else none,
   if mt.isExtended then some b.p_mask else none⟩

/-- The model inputs constructed by the module-level predict
(reader_sklearn.py lines 342-348): input_ids from batch position 0,
token_type_ids from position 1 (None for xlm) and attention_mask from
position 2, exactly as the source indexes the batch. -/
def predictInputs {α : Type} (mt : ModelType) (b : EvalBatch α) : ModelInputs α :=
  ⟨b.input_ids,
   b.segment_ids,
   if mt = ModelType.xlm then none else some b.input_mask,
   if mt.isExtended then some b.cls_index else none,
   if mt.isExtended then some b.p_mask else none⟩

/-- Claim C2: the claim says evaluate and predict bind the dataset's
input-mask tensor to attention_mask and the segment-ids tensor to
token_type_ids, constructing identical model inputs. On the batch
(input_ids 0, input_mask 1, segment_ids 2, example_index 3, cls_index 4,
p_mask 5) evaluate does so, but predict binds attention_mask to the
segment-ids tensor (value 2) and token_type_ids to the input-mask tensor
(value 1): the two bindings are swapped, so the inputs differ. -/
theorem C2_predict_swaps_mask_and_segments :
    (predictInputs ModelType.bert (⟨0, 1, 2, 3, 4, 5⟩ : EvalBatch Nat)).attention_mask = 2
    ∧ (evaluateInputs ModelType.bert (⟨0, 1, 2, 3, 4, 5⟩ : EvalBatch Nat)).attention_mask = 1
    ∧ (predictInputs ModelType.bert (⟨0, 1, 2, 3, 4, 5⟩ : EvalBatch Nat)).token_type_ids = some 1
    ∧ (evaluateInputs ModelType.bert (⟨0, 1, 2, 3, 4, 5⟩ : EvalBatch Nat)).token_type_ids = some 2
    ∧ predictInputs ModelType.bert (⟨0, 1, 2, 3, 4, 5⟩ : EvalBatch Nat)
        ≠ evaluateInputs ModelType.bert (⟨0, 1, 2, 3, 4, 5⟩ : EvalBatch Nat) := by
  refine ⟨rfl, rfl, rfl, rfl, ?_⟩
  decide

/-! ## Claim C5: output-directory guard in Reader.fit -/

/-- Outcome of Reader.fit: the ValueError raised by the output-directory
guard, or a completed training run. -/
inductive FitOutcome
  | configError (msg : String)
  | trained
deriving DecidableEq, Repr

/-- The work Reader.fit performs after its guard. -/
inductive FitEvent
  | loadFeatures
  | trainModel
  | saveModel
deriving DecidableEq, Repr

/-- Reader.fit (reader_sklearn.py lines 525-550), reduced to its control
flow: the first statement raises a ValueError when the output directory
exists, os.listdir returns a non-empty listing, and overwrite_output_dir is
false; otherwise it computes the training features
(load_and_cache_examples), trains, and saves the model. The second
component records the work performed before returning. -/
def Reader.fit (dirExists dirNonEmpty overwrite_output_dir : Bool) :
    FitOutcome × List FitEvent :=
  if dirExists && dirNonEmpty && !overwrite_output_dir then
    (FitOutcome.configError
      "Output directory already exists and is not empty. Use --overwrite_output_dir to overcome.",
      [])
  else
    (FitOutcome.trained, [FitEvent.loadFeatures, FitEvent.trainModel, FitEvent.saveModel])

/-- Claim C5: when the output directory exists, is non-empty, and
overwrite_output_dir is false, Reader.fit raises the ValueError immediately,
before any feature computation or training (the event list is empty); in
every other configuration no such error is raised. -/
theorem C5_fit_output_dir_guard : ∀ e n o : Bool,
    ((e = true ∧ n = true ∧ o = false) →
      Reader.fit e n o
        = (FitOutcome.configError
            "Output directory already exists and is not empty. Use --overwrite_output_dir to overcome.",
           []))
    ∧ (¬(e = true ∧ n = true ∧ o = false) →
      (Reader.fit e n o).1 = FitOutcome.trained) := by
  decide

/-- Witness for C5 at the failing configuration: directory exists, is
non-empty, overwrite forbidden. -/
theorem C5_fit_output_dir_guard_witness :
    Reader.fit true true false
      = (FitOutcome.configError
          "Output directory already exists and is not empty. Use --overwrite_output_dir to overcome.",
         []) :=
  (C5_fit_output_dir_guard true true false).1 ⟨rfl, rfl, rfl⟩

/-! ## Claim C9: local-rank gate in Reader.evaluate -/

/-- The work Reader.evaluate performs per checkpoint. -/
inductive EvalEvent
  | loadCheckpoint (c : String)
  | runSquadEval (c : String)
deriving DecidableEq, Repr

/-- The global-step suffix computed per checkpoint (reader_sklearn.py line
566): the last dash-separated piece of the checkpoint path when more than
one checkpoint is evaluated, otherwise the empty string. -/
def checkpointSuffix (cps : List String) (c : String) : String :=
  if 1 < cps.length then (c.splitOn "-").getLastD "" else ""

/-- Reader.evaluate (reader_sklearn.py lines 552-578): results start empty;
only when local_rank is -1 or 0 does the method iterate over the
checkpoints, reloading the model and running the module-level evaluate for
each, suffixing the metric keys with the global step; otherwise the empty
results mapping is returned untouched. resOf stands for the metrics the
module-level evaluate returns for a checkpoint. -/
def Reader.evaluate (localRank : Int) (cps : List String)
    (resOf : String → List (String × Int)) :
    List (String × Int) × List EvalEvent :=
  if localRank = -1 ∨ localRank = 0 then
    cps.foldl
      (fun acc c =>
        let gs := checkpointSuffix cps c
        let r := (resOf c).map
          (fun kv => (kv.1 ++ (if gs = "" then "" else "_" ++ gs), kv.2))
        (acc.1 ++ r, acc.2 ++ [EvalEvent.loadCheckpoint c, EvalEvent.runSquadEval c]))
      ([], [])
  else ([], [])

/-- Claim C9: for every Reader whose local_rank is neither -1 nor 0,
Reader.evaluate returns the empty mapping, without loading any checkpoint or
running any model evaluation (the event list is empty). -/
theorem C9_evaluate_nonzero_rank_empty :
    ∀ (lr : Int) (cps : List String) (resOf : String → List (String × Int)),
    lr ≠ -1 → lr ≠ 0 → Reader.evaluate lr cps resOf = ([], []) := by
  intro lr cps resOf h1 h2
  simp [Reader.evaluate, h1, h2]

/-- Witness for C9 at local rank 1 with one checkpoint available. -/
theorem C9_evaluate_nonzero_rank_empty_witness :
    Reader.evaluate 1 ["out/checkpoint-50"] (fun _ => [("f1", 88)]) = ([], []) :=
  C9_evaluate_nonzero_rank_empty 1 ["out/checkpoint-50"] (fun _ => [("f1", 88)])
    (by decide) (by decide)

/-! ## Claims C4 and C10: the cache branch of load_and_cache_examples -/

/-- The observable steps of load_and_cache_examples. -/
inductive LoadEvent
  | readCache
  | computeFeatures
  | saveCache
deriving DecidableEq, Repr

/-- The environment load_and_cache_examples runs in: whether the cached
feature file exists, what torch.load of it yields (possibly an error), and
the features that read_squad_examples plus convert_examples_to_features
would compute from the source data. -/
structure FeatureSource (F : Type) where
  cacheExists : Bool
  cacheLoad : Except String (List F)
  computed : List F
deriving Repr

/-- load_and_cache_examples (reader_sklearn.py lines 276-319), reduced to
its cache branch: when the cached file exists, overwrite_cache is false and
output_examples is false, the features come from torch.load of the cached
file, whose failure propagates (the source wraps the load in no handler);
otherwise the features are recomputed from the source data and, when
local_rank is -1 or 0, saved to the cache. The second component records the
steps taken. -/
def load_and_cache_examples {F : Type} (s : FeatureSource F)
    (overwrite_cache output_examples : Bool) (localRank : Int) :
    Except String (List F) × List LoadEvent :=
  if s.cacheExists && !overwrite_cache && !output_examples then
    match s.cacheLoad with
    | Except.error e => (Except.error e, [LoadEvent.readCache])
    | Except.ok fs => (Except.ok fs, [LoadEvent.readCache])
  else
    (Except.ok s.computed,
      LoadEvent.computeFeatures ::
        (if localRank = -1 ∨ localRank = 0 then [LoadEvent.saveCache] else []))

/-- Claim C4, counterexample: the claim says a failure to read an existing
cached feature file is non-fatal and the function falls back to recomputing.
With the cache present, overwrite_cache false and output_examples false, a
failing torch.load propagates as the result and no recomputation happens. -/
theorem C4_cache_read_failure_propagates :
    (load_and_cache_examples
        (⟨true, Except.error "read failed", [7]⟩ : FeatureSource Nat)
        false false (-1)).1 = Except.error "read failed"
    ∧ LoadEvent.computeFeatures ∉
        (load_and_cache_examples
          (⟨true, Except.error "read failed", [7]⟩ : FeatureSource Nat)
          false false (-1)).2 :=
  ⟨rfl, by decide⟩

/-- Claim C4 (amended): when load_and_cache_examples takes the cache branch
(cache file exists, overwrite_cache false, output_examples false) and the
cached-file read fails, the error propagates to the caller and no fallback
recomputation occurs. -/
theorem C4_cache_read_failure_amended :
    ∀ {F : Type} (s : FeatureSource F) (lr : Int) (e : String),
    s.cacheExists = true → s.cacheLoad = Except.error e →
    load_and_cache_examples s false false lr = (Except.error e, [LoadEvent.readCache]) := by
  intro F s lr e h1 h2
  simp [load_and_cache_examples, h1, h2]

/-- Witness for the amended C4 at a concrete failing cache read. -/
theorem C4_cache_read_failure_amended_witness :
    load_and_cache_examples (⟨true, Except.error "io", [5]⟩ : FeatureSource Nat) false false 0
      = (Except.error "io", [LoadEvent.readCache]) :=
  C4_cache_read_failure_amended (⟨true, Except.error "io", [5]⟩ : FeatureSource Nat) 0 "io"
    rfl rfl

/-- Claim C10: with output_examples true (how evaluate at line 201 and
predict at line 323 call load_and_cache_examples), the cached feature file
is never read — even when it exists and overwrite_cache is false — and the
features are recomputed from the source data; conversely the cache can only
be read when output_examples is false. -/
theorem C10_output_examples_skips_cache :
    ∀ {F : Type} (s : FeatureSource F) (oc : Bool) (lr : Int),
    (LoadEvent.readCache ∉ (load_and_cache_examples s oc true lr).2
      ∧ LoadEvent.computeFeatures ∈ (load_and_cache_examples s oc true lr).2
      ∧ (load_and_cache_examples s oc true lr).1 = Except.ok s.computed)
    ∧ (∀ oe : Bool,
        LoadEvent.readCache ∈ (load_and_cache_examples s oc oe lr).2 → oe = false) := by
  intro F s oc lr
  by_cases hlr : (lr = -1 ∨ lr = 0)
  · refine ⟨by simp [load_and_cache_examples, hlr], ?_⟩
    intro oe h
    cases oe
    · rfl
    · simp [load_and_cache_examples, hlr] at h
  · refine ⟨by simp [load_and_cache_examples, hlr], ?_⟩
    intro oe h
    cases oe
    · rfl
    · simp [load_and_cache_examples, hlr] at h

/-- Witness for C10 at a concrete source with an existing, readable cache
and overwrite_cache false: output_examples true still skips the cache. -/
theorem C10_output_examples_skips_cache_witness :
    LoadEvent.readCache ∉
      (load_and_cache_examples (⟨true, Except.ok [1], [2]⟩ : FeatureSource Nat)
        false true (-1)).2
    ∧ LoadEvent.computeFeatures ∈
      (load_and_cache_examples (⟨true, Except.ok [1], [2]⟩ : FeatureSource Nat)
        false true (-1)).2 :=
  ⟨(C10_output_examples_skips_cache (⟨true, Except.ok [1], [2]⟩ : FeatureSource Nat)
      false (-1)).1.1,
   (C10_output_examples_skips_cache (⟨true, Except.ok [1], [2]⟩ : FeatureSource Nat)
      false (-1)).1.2.1⟩

/-! ## Claim C6: null-odds file plumbing -/

/-- The null-odds path argument the module-level evaluate passes to the
prediction writer (reader_sklearn.py lines 250-253): the null_odds JSON path
when version_2_with_negative, otherwise None. -/
def evaluateNullOddsArg (outputDir pre : String) (v2 : Bool) : Option String :=
  if v2 then some (outputDir ++ "/null_odds_" ++ pre ++ ".json") else none

/-- The null-odds path argument the module-level predict passes to the
prediction writer (reader_sklearn.py line 371): always the null_odds JSON
path, with no check of version_2_with_negative. -/
def predictNullOddsArg (outputDir pre : String) (_v2 : Bool) : Option String :=
  some (outputDir ++ "/null_odds_" ++ pre ++ ".json")

/-- Modelled from the spec: the prediction writers (utils_squad) are not
among the sources. Per the spec a null-odds JSON, mapping Example id to
null_score minus best_non_null_score, is produced only in SQuAD 2.0 mode;
the writer writes it at the supplied path exactly when
version_2_with_negative is true. Returns the path of the written file. -/
def writerNullOddsOutput (v2 : Bool) (arg : Option String) : Option String :=
  if v2 then arg else none

/-- Claim C6, counterexample: the claim says that with 2.0 mode off no
null-odds file path is passed to the prediction writer, in both evaluate and
predict. With version_2_with_negative false, evaluate indeed passes None,
but predict passes the null_odds path regardless. -/
theorem C6_predict_always_passes_null_odds_path :
    evaluateNullOddsArg "out" "" false = none
    ∧ predictNullOddsArg "out" "" false ≠ none := by
  exact ⟨rfl, by simp [predictNullOddsArg]⟩

/-- Claim C6 (amended): a null-odds output file is produced exactly when
version_2_with_negative is true, in both evaluate and predict (the writer,
modelled from the spec, writes it only in 2.0 mode); evaluate passes no
null-odds path when 2.0 mode is off, but predict always passes one. -/
theorem C6_null_odds_written_iff_v2 :
    ∀ (od pre : String) (v2 : Bool),
    ((writerNullOddsOutput v2 (evaluateNullOddsArg od pre v2)).isSome = v2)
    ∧ ((writerNullOddsOutput v2 (predictNullOddsArg od pre v2)).isSome = v2)
    ∧ (v2 = false → evaluateNullOddsArg od pre v2 = none)
    ∧ (predictNullOddsArg od pre v2).isSome = true := by
  intro od pre v2
  cases v2 <;>
    simp [evaluateNullOddsArg, predictNullOddsArg, writerNullOddsOutput]

/-- Witness for the amended C6 with 2.0 mode off: evaluate passes None. -/
theorem C6_null_odds_written_iff_v2_witness :
    evaluateNullOddsArg "out" "p" false = none :=
  (C6_null_odds_written_iff_v2 "out" "p" false).2.2.1 rfl

/-! ## Claims C3 and C7: the span decoders and the prediction-writing step

The span decoders live in utils_squad, which is not among the sources;
the definitions below are modelled from the specification (sections 4.2,
4.3 and 4.4) and carry that provenance in their doc comments. Logit and
log-probability scores are carried as integers: the claims settled on
these definitions (span validity invariants and determinism of decoding)
do not depend on the arithmetic of the scores.
-/

/-- One sliding-window Feature, restricted to what decoding consults:
p_mask marks non-context positions (1 = masked, per the spec excluded from
span selection) and token_to_orig_map sends context token indices to
original-text word indices. -/
structure FeatureModel where
  p_mask : List Nat
  tokToOrig : List (Nat × Nat)
deriving DecidableEq, Repr

/-- One Feature's standard model output (utils_squad.RawResult): one start
and one end logit per token position. -/
structure RawResult where
  unique_id : Nat
  start_logits : List Int
  end_logits : List Int
deriving DecidableEq, Repr

/-- One Feature's extended model output (utils_squad.RawResultExtended):
top-K start and end beams plus the answerability classifier logit. -/
structure RawResultExtended where
  unique_id : Nat
  start_top_log_probs : List Int
  start_top_index : List Nat
  end_top_log_probs : List Int
  end_top_index : List Nat
  cls_logits : Int
deriving DecidableEq, Repr

/-- A candidate span: feature index, start and end token indices, combined
score (spec section 3). -/
structure PrelimPrediction where
  feature_index : Nat
  start_index : Nat
  end_index : Nat
  score : Int
deriving DecidableEq, Repr

/-- Descending order on logit-valued index pairs, used to pick the best
start and end positions. -/
def logitGe (a b : Nat × Int) : Prop := b.2 ≤ a.2

instance : DecidableRel logitGe := fun a b => inferInstanceAs (Decidable (b.2 ≤ a.2))

/-- Modelled from the spec (section 4.2): the top n indices of a logit list
by raw logit value, in descending order. -/
def topIndices (n : Nat) (logits : List Int) : List Nat :=
  ((logits.enum.insertionSort logitGe).map Prod.fst).take n

/-- Modelled from the spec (sections 4.2 and 3): a (start, end) pair is a
valid candidate span when start is at most end, the token span length is at
most max_answer_length, p_mask marks neither position as non-context, and
both positions map through token_to_orig_map to original-text offsets. -/
def validSpan (maxLen : Nat) (f : FeatureModel) (s e : Nat) : Bool :=
  decide (s ≤ e) && decide (e - s + 1 ≤ maxLen)
    && (f.p_mask.getD s 1 == 0) && (f.p_mask.getD e 1 == 0)
    && (f.tokToOrig.lookup s).isSome && (f.tokToOrig.lookup e).isSome

/-- Modelled from the spec (section 4.2): the standard decoder's candidates
for one Feature — cross product of the top n_best_size start indices and top
n_best_size end indices, validity-filtered, scored by start_logit plus
end_logit. -/
def decodeFeature (nBest maxLen : Nat) (fi : Nat) (f : FeatureModel) (r : RawResult) :
    List PrelimPrediction :=
  (topIndices nBest r.start_logits).flatMap (fun s =>
    (topIndices nBest r.end_logits).filterMap (fun e =>
      if validSpan maxLen f s e then
        some ⟨fi, s, e, r.start_logits.getD s 0 + r.end_logits.getD e 0⟩
      else none))

/-- Modelled from the spec (section 4.3): the extended decoder's candidates
for one Feature — cross product of the K returned start positions and K
returned end positions, the same validity filters, scored by start log
probability plus end log probability. -/
def decodeFeatureExtended (maxLen : Nat) (fi : Nat) (f : FeatureModel)
    (r : RawResultExtended) : List PrelimPrediction :=
  (r.start_top_index.zip r.start_top_log_probs).flatMap (fun sp =>
    (r.end_top_index.zip r.end_top_log_probs).filterMap (fun ep =>
      if validSpan maxLen f sp.1 ep.1 then some ⟨fi, sp.1, ep.1, sp.2 + ep.2⟩
      else none))

/-- Candidates of all Features of one Example, the per-Feature decoder
applied at consecutive feature indices starting from i. -/
def decodeAllFrom {R : Type} (dec : Nat → FeatureModel → R → List PrelimPrediction) :
    Nat → List (FeatureModel × R) → List PrelimPrediction
  | _, [] => []
  | i, fr :: rest => dec i fr.1 fr.2 ++ decodeAllFrom dec (i + 1) rest

/-- Descending order on candidate scores. -/
def scoreGe (a b : PrelimPrediction) : Prop := b.score ≤ a.score

instance : DecidableRel scoreGe := fun a b => inferInstanceAs (Decidable (b.score ≤ a.score))

/-- Modelled from the spec (section 4.4): deduplication by reconstructed,
normalized answer text — the key function stands for the Aggregator's text
recovery — keeping the first-seen (highest-scoring) candidate per key. -/
def dedupeByKey {K : Type} [DecidableEq K] (key : PrelimPrediction → K) :
    List PrelimPrediction → List K → List PrelimPrediction
  | [], _ => []
  | c :: rest, seen =>
    if key c ∈ seen then dedupeByKey key rest seen
    else c :: dedupeByKey key rest (key c :: seen)

/-- Modelled from the spec (sections 4.2 and 4.4): the standard decoder's
emitted n-best list for one Example — all candidates of all its Features,
sorted descending by score, deduplicated by answer text, truncated to
n_best_size. -/
def decodeStandardNbest {K : Type} [DecidableEq K] (nBest maxLen : Nat)
    (key : PrelimPrediction → K) (frs : List (FeatureModel × RawResult)) :
    List PrelimPrediction :=
  (dedupeByKey key
    ((decodeAllFrom (decodeFeature nBest maxLen) 0 frs).insertionSort scoreGe) []).take nBest

/-- Modelled from the spec (sections 4.3 and 4.4): the extended decoder's
emitted n-best list for one Example, aggregated, deduplicated and ranked
identically to the standard one. -/
def decodeExtendedNbest {K : Type} [DecidableEq K] (nBest maxLen : Nat)
    (key : PrelimPrediction → K) (frs : List (FeatureModel × RawResultExtended)) :
    List PrelimPrediction :=
  (dedupeByKey key
    ((decodeAllFrom (decodeFeatureExtended maxLen) 0 frs).insertionSort scoreGe) []).take nBest

/-- The span invariant of claim C3 for a candidate of an Example: end is at
least start, the token span length is at most max_answer_length, and the
candidate's Feature exists and maps both endpoints through its
token_to_orig_map to original-text offsets. -/
def SpanInv {R : Type} (maxLen : Nat) (frs : List (FeatureModel × R))
    (c : PrelimPrediction) : Prop :=
  c.start_index ≤ c.end_index
  ∧ c.end_index - c.start_index + 1 ≤ maxLen
  ∧ ∃ f r, frs.get? c.feature_index = some (f, r)
      ∧ (f.tokToOrig.lookup c.start_index).isSome = true
      ∧ (f.tokToOrig.lookup c.end_index).isSome = true

lemma validSpan_spec {maxLen : Nat} {f : FeatureModel} {s e : Nat}
    (h : validSpan maxLen f s e = true) :
    s ≤ e ∧ e - s + 1 ≤ maxLen
      ∧ (f.tokToOrig.lookup s).isSome = true
      ∧ (f.tokToOrig.lookup e).isSome = true := by
  simp only [validSpan, Bool.and_eq_true, decide_eq_true_eq, beq_iff_eq] at h
  obtain ⟨⟨⟨⟨⟨hA, hB⟩, hC⟩, hD⟩, hE⟩, hF⟩ := h
  exact ⟨hA, hB, hE, hF⟩

lemma decodeFeature_mem {nBest maxLen i : Nat} {f : FeatureModel} {r : RawResult}
    {c : PrelimPrediction} (h : c ∈ decodeFeature nBest maxLen i f r) :
    c.feature_index = i ∧ validSpan maxLen f c.start_index c.end_index = true := by
  simp only [decodeFeature, List.mem_flatMap, List.mem_filterMap] at h
  obtain ⟨s, _, e, _, he⟩ := h
  by_cases hv : validSpan maxLen f s e = true
  · rw [if_pos hv] at he
    obtain rfl := Option.some.inj he
    exact ⟨rfl, hv⟩
  · rw [if_neg hv] at he
    exact absurd he (by simp)

lemma decodeFeatureExtended_mem {maxLen i : Nat} {f : FeatureModel}
    {r : RawResultExtended} {c : PrelimPrediction}
    (h : c ∈ decodeFeatureExtended maxLen i f r) :
    c.feature_index = i ∧ validSpan maxLen f c.start_index c.end_index = true := by
  simp only [decodeFeatureExtended, List.mem_flatMap, List.mem_filterMap] at h
  obtain ⟨sp, _, ep, _, he⟩ := h
  by_cases hv : validSpan maxLen f sp.1 ep.1 = true
  · rw [if_pos hv] at he
    obtain rfl := Option.some.inj he
    exact ⟨rfl, hv⟩
  · rw [if_neg hv] at he
    exact absurd he (by simp)

lemma decodeAllFrom_mem {R : Type} {maxLen : Nat}
    {dec : Nat → FeatureModel → R → List PrelimPrediction}
    (hdec : ∀ i f r c, c ∈ dec i f r →
      c.feature_index = i ∧ validSpan maxLen f c.start_index c.end_index = true) :
    ∀ (i : Nat) (frs : List (FeatureModel × R)) (c : PrelimPrediction),
      c ∈ decodeAllFrom dec i frs →
      i ≤ c.feature_index
      ∧ ∃ f r, frs.get? (c.feature_index - i) = some (f, r)
          ∧ validSpan maxLen f c.start_index c.end_index = true := by
  intro i frs
  induction frs generalizing i with
  | nil => intro c h; simp [decodeAllFrom] at h
  | cons fr rest ih =>
    intro c h
    rw [decodeAllFrom] at h
    rcases List.mem_append.mp h with h1 | h2
    · obtain ⟨hfi, hv⟩ := hdec i fr.1 fr.2 c h1
      refine ⟨le_of_eq hfi.symm, fr.1, fr.2, ?_, hv⟩
      rw [hfi, Nat.sub_self]
      simp
    · obtain ⟨hle, f, r, hget, hv⟩ := ih (i + 1) c h2
      refine ⟨le_trans (Nat.le_succ i) hle, f, r, ?_, hv⟩
      have hst : c.feature_index - i = (c.feature_index - (i + 1)) + 1 := by omega
      rw [hst, List.get?_cons_succ]
      exact hget

lemma dedupeByKey_subset {K : Type} [DecidableEq K] {key : PrelimPrediction → K} :
    ∀ (l : List PrelimPrediction) (seen : List K) (c : PrelimPrediction),
      c ∈ dedupeByKey key l seen → c ∈ l := by
  intro l
  induction l with
  | nil => intro seen c h; simp [dedupeByKey] at h
  | cons a rest ih =>
    intro seen c h
    rw [dedupeByKey] at h
    by_cases hk : key a ∈ seen
    · rw [if_pos hk] at h
      exact List.mem_cons_of_mem a (ih seen c h)
    · rw [if_neg hk] at h
      rcases List.mem_cons.mp h with rfl | h2
      · exact List.mem_cons.mpr (Or.inl rfl)
      · exact List.mem_cons_of_mem a (ih _ c h2)

/-- Claim C3: every candidate span emitted by either span decoder has its
end token index at least its start token index, a token span length of at
most max_answer_length, and start and end indices that map through its
Feature's token_to_orig_map to valid original-text offsets. -/
theorem C3_emitted_spans_valid :
    (∀ (K : Type) [DecidableEq K] (nBest maxLen : Nat)
        (key : PrelimPrediction → K) (frs : List (FeatureModel × RawResult))
        (c : PrelimPrediction),
      c ∈ decodeStandardNbest nBest maxLen key frs → SpanInv maxLen frs c)
    ∧ (∀ (K : Type) [DecidableEq K] (nBest maxLen : Nat)
        (key : PrelimPrediction → K) (frs : List (FeatureModel × RawResultExtended))
        (c : PrelimPrediction),
      c ∈ decodeExtendedNbest nBest maxLen key frs → SpanInv maxLen frs c) := by
  constructor
  · intro K _ nBest maxLen key frs c h
    rw [decodeStandardNbest] at h
    have h1 := List.mem_of_mem_take h
    have h2 := dedupeByKey_subset _ _ _ h1
    have h3 := (List.mem_insertionSort scoreGe).mp h2
    obtain ⟨-, f, r, hget, hv⟩ :=
      decodeAllFrom_mem (fun _ _ _ _ hc => decodeFeature_mem hc) 0 frs c h3
    obtain ⟨ha, hb, hc1, hd⟩ := validSpan_spec hv
    rw [Nat.sub_zero] at hget
    exact ⟨ha, hb, f, r, hget, hc1, hd⟩
  · intro K _ nBest maxLen key frs c h
    rw [decodeExtendedNbest] at h
    have h1 := List.mem_of_mem_take h
    have h2 := dedupeByKey_subset _ _ _ h1
    have h3 := (List.mem_insertionSort scoreGe).mp h2
    obtain ⟨-, f, r, hget, hv⟩ :=
      decodeAllFrom_mem (fun _ _ _ _ hc => decodeFeatureExtended_mem hc) 0 frs c h3
    obtain ⟨ha, hb, hc1, hd⟩ := validSpan_spec hv
    rw [Nat.sub_zero] at hget
    exact ⟨ha, hb, f, r, hget, hc1, hd⟩

/-- Witness for C3 on a concrete one-Feature Example: four token positions,
CLS and final position masked, tokens 1 and 2 in context; the top-scoring
emitted candidate is the span from token 1 to token 2 with score 11, and it
satisfies the span invariant. -/
theorem C3_emitted_spans_valid_witness :
    SpanInv 5
      [((⟨[1, 0, 0, 1], [(1, 0), (2, 1)]⟩ : FeatureModel),
        (⟨1000, [0, 5, 1, 0], [0, 1, 6, 0]⟩ : RawResult))]
      ⟨0, 1, 2, 11⟩ :=
  C3_emitted_spans_valid.1 Nat 2 5 (fun c => c.start_index)
    [((⟨[1, 0, 0, 1], [(1, 0), (2, 1)]⟩ : FeatureModel),
      (⟨1000, [0, 5, 1, 0], [0, 1, 6, 0]⟩ : RawResult))]
    ⟨0, 1, 2, 11⟩ (by decide)

/-! ## Claim C7: the prediction-writing step is deterministic and stateless -/

/-- The files the prediction writer touches, as a map from path to content. -/
def FileStore : Type := String → Option String

/-- Writing a file: the content at the path is replaced. -/
def fsWrite (fs : FileStore) (p c : String) : FileStore :=
  fun q => if q = p then some c else fs q

/-- Serialization of one candidate for the n-best file. -/
def renderCand (c : PrelimPrediction) : String :=
  toString c.feature_index ++ ":" ++ toString c.start_index ++ ":"
    ++ toString c.end_index ++ ":" ++ toString c.score

/-- Serialization of the n-best list. -/
def renderNbest (l : List PrelimPrediction) : String :=
  String.intercalate "," (l.map renderCand)

/-- Modelled from the spec (section 4.4): the final prediction for one
Example is the recovered text of the best emitted candidate, or the empty
string when no candidate survives the validity filters. -/
def finalPrediction (nBest maxLen : Nat) (key : PrelimPrediction → String)
    (frs : List (FeatureModel × RawResult)) : String :=
  (((decodeStandardNbest nBest maxLen key frs).head?.map key).getD "")

/-- Modelled from the spec: the prediction-writing step run by predict
(write_predictions, utils_squad, not among the sources) — decodes the
Example's RawResult batch into the n-best list, writes the predictions file
and the n-best file into the output directory, and returns the n-best list
with the final prediction. The key function stands for the Aggregator's
answer-text recovery. -/
def writeStep (nBest maxLen : Nat) (key : PrelimPrediction → String)
    (frs : List (FeatureModel × RawResult)) (od pre : String) (fs : FileStore) :
    FileStore × (List PrelimPrediction × String) :=
  (fsWrite
    (fsWrite fs (od ++ "/predictions_" ++ pre ++ ".json")
      (finalPrediction nBest maxLen key frs))
    (od ++ "/nbest_predictions_" ++ pre ++ ".json")
    (renderNbest (decodeStandardNbest nBest maxLen key frs)),
   (decodeStandardNbest nBest maxLen key frs,
    finalPrediction nBest maxLen key frs))

lemma fsWrite_write_self (fs : FileStore) (p1 c1 p2 c2 : String) :
    fsWrite (fsWrite (fsWrite (fsWrite fs p1 c1) p2 c2) p1 c1) p2 c2
      = fsWrite (fsWrite fs p1 c1) p2 c2 := by
  funext q
  by_cases h2 : q = p2 <;> by_cases h1 : q = p1 <;> simp [fsWrite, h1, h2]

/-- Claim C7: decoding is deterministic and stateless. Running the
prediction-writing step twice on identical inputs yields the identical
n-best list and final prediction and leaves the file store unchanged after
the first run, and the outputs do not depend on the prior file store. -/
theorem C7_write_step_deterministic :
    ∀ (nBest maxLen : Nat) (key : PrelimPrediction → String)
      (frs : List (FeatureModel × RawResult)) (od pre : String) (fs fs2 : FileStore),
    writeStep nBest maxLen key frs od pre (writeStep nBest maxLen key frs od pre fs).1
      = writeStep nBest maxLen key frs od pre fs
    ∧ (writeStep nBest maxLen key frs od pre fs).2
      = (writeStep nBest maxLen key frs od pre fs2).2 := by
  intro nBest maxLen key frs od pre fs fs2
  constructor
  · unfold writeStep
    congr 1
    exact fsWrite_write_self fs _ _ _ _
  · rfl
